import Mathlib

/-!
Verification development for the Cite-Perfect citation pipeline.

The definitions below are a shallow embedding of the Python sources:

* `src/document_processor.py` — ibid detection (`IBID_PATTERN`, `is_ibid`,
  `extract_ibid_page`), URL normalization (`normalize_url`, `urls_match`),
  source keys (`generate_source_key`, `sources_match`), the
  `CitationHistory` state machine and the per-note decision procedure
  `process_single_note` / `process_document`.
* `src/formatters/base.py` — `BaseFormatter.format_ibid`.
* `src/router.py` — `_search_engines_parallel` (first-valid-wins race).
* `src/unified_router.py` — `_route_journal` (collect-then-prefer-DOI race).

Python strings are modelled by `String`; optional/None-able strings by
`Option String` with Python truthiness (`None` and `""` are falsy).  The
regular expression `IBID_PATTERN` is embedded as a backtracking matcher in
continuation-passing style, with the same greedy/left-to-right preference
order as CPython's `re`; `re.IGNORECASE` is modelled by lowercasing the
input (every literal letter of the pattern is lowercase and the other
character classes are case-insensitive).  The concurrent engine races are
sequentialized over the completion-ordered list of engine outcomes
observed by the `as_completed` loop; an elapsed race timeout truncates
that list.
-/

namespace CitePerfect

/-- Python truthiness of an optional string: `None` and `""` are falsy. -/
def truthyS : Option String → Bool
  | some s => s != ""
  | none => false

/-- Python `str` whitespace as matched by `\s` and stripped by `str.strip()`
(ASCII part: space, tab, newline, carriage return, vertical tab, form feed). -/
def isPyWhitespace (c : Char) : Bool :=
  c == ' ' || c == '\t' || c == '\n' || c == '\r' || c == Char.ofNat 11 || c == Char.ofNat 12

/-- Python `str.strip()` (for the ASCII inputs of this development). -/
def pyStrip (s : String) : String :=
  String.mk (((s.data.dropWhile isPyWhitespace).reverse.dropWhile isPyWhitespace).reverse)

/-- Python `str.lower()` (ASCII case folding, which covers the inputs here). -/
def pyLower (s : String) : String :=
  String.mk (s.data.map Char.toLower)

/-- Python `s.lower().strip()`, the normalization applied to source-key parts. -/
def lowerStrip (s : String) : String := pyStrip (pyLower s)

/-- Python `s.startswith(p)`. -/
def pyStartsWith (s p : String) : Bool :=
  s.data.take p.data.length == p.data

/-- Drop the first `n` characters (Python `s[n:]`). -/
def pyDrop (s : String) (n : Nat) : String := String.mk (s.data.drop n)

/-- Python `s.rstrip('/')`. -/
def rstripSlashes (s : String) : String :=
  String.mk ((s.data.reverse.dropWhile (fun c => c == '/')).reverse)

/-- Python `s.split('?')[0]`: everything before the first question mark. -/
def truncateAtQuery (s : String) : String :=
  String.mk (s.data.takeWhile (fun c => c != '?'))

/-! ### The IBID_PATTERN matcher

`IBID_PATTERN` in `document_processor.py`:

  `^(?:ibid\.?|ibidem\.?|id\.?)(?:\s*(?:at\s+|[,.]?\s*)?(?:pp?\.?\s*)?(\d+[\-–]?\d*)?)?\.?$`

compiled with `re.IGNORECASE`.  The combinators below implement a
backtracking matcher in continuation-passing style: each piece consumes
characters and calls the continuation `k`; `<|>` on `Option` realizes the
left-to-right alternative order and the greedy preference (consume first,
give back on failure) of CPython's `re`. -/

/-- `[\-–]`: hyphen or en dash, the page-range separators of the pattern. -/
def isDashChar (c : Char) : Bool := c == '-' || c == '–'

/-- Greedy `p*`: consume as many `p`-characters as possible, backtracking
one character at a time when the continuation fails. -/
def pStar {α : Type} (p : Char → Bool) (k : List Char → Option α) : List Char → Option α
  | [] => k []
  | c :: cs => if p c then (pStar p k cs <|> k (c :: cs)) else k (c :: cs)

/-- Greedy `p+`: at least one `p`-character, then as `pStar`. -/
def pPlus {α : Type} (p : Char → Bool) (k : List Char → Option α) : List Char → Option α
  | [] => none
  | c :: cs => if p c then pStar p k cs else none

/-- Greedy `c?`: try consuming the literal character first. -/
def pOptChar {α : Type} (c : Char) (k : List Char → Option α) : List Char → Option α
  | [] => k []
  | x :: xs => if x == c then (k xs <|> k (x :: xs)) else k (x :: xs)

/-- Greedy `[..]?` for a character class `p`. -/
def pOptPred {α : Type} (p : Char → Bool) (k : List Char → Option α) : List Char → Option α
  | [] => k []
  | x :: xs => if p x then (k xs <|> k (x :: xs)) else k (x :: xs)

/-- A literal character sequence. -/
def pLit {α : Type} : List Char → (List Char → Option α) → List Char → Option α
  | [], k, cs => k cs
  | _ :: _, _, [] => none
  | l :: ls, k, c :: cs => if c == l then pLit ls k cs else none

/-- All splits of a greedy `\d*`: pairs (consumed digit run, rest), longest run
first — the backtracking order of the regex engine. -/
def digitSplitsStar : List Char → List (List Char × List Char)
  | [] => [([], [])]
  | c :: cs =>
    if c.isDigit then
      ((digitSplitsStar cs).map (fun p => (c :: p.1, p.2))) ++ [([], c :: cs)]
    else [([], c :: cs)]

/-- All splits of a greedy `\d+` (nonempty digit run), longest first. -/
def digitSplitsPlus : List Char → List (List Char × List Char)
  | [] => []
  | c :: cs =>
    if c.isDigit then (digitSplitsStar cs).map (fun p => (c :: p.1, p.2)) else []

/-- Backtracking candidates for capture group 1, `\d+[\-–]?\d*`, as pairs
(captured characters, rest of input), in the engine's preference order:
longest `\d+` first, dash present before dash absent, longest trailing
`\d*` first. -/
def capCandidates (cs : List Char) : List (List Char × List Char) :=
  (digitSplitsPlus cs).flatMap fun p =>
    (match p.2 with
     | d :: r =>
       if isDashChar d then (digitSplitsStar r).map (fun q => (p.1 ++ d :: q.1, q.2)) else []
     | [] => []) ++
    ((digitSplitsStar p.2).map fun q => (p.1 ++ q.1, q.2))

/-- The pattern tail after the optional page group: `\.?$`.  Carries the value
of capture group 1 (`none` when the group did not participate). -/
def ibidFinish (g : Option String) : List Char → Option (Option String) :=
  pOptChar '.' fun rest => if rest.isEmpty then some g else none

/-- The optional capture `(\d+[\-–]?\d*)?` followed by `\.?$`. -/
def ibidCap (cs : List Char) : Option (Option String) :=
  ((capCandidates cs).findSome? fun p => ibidFinish (some (String.mk p.1)) p.2) <|>
  ibidFinish none cs

/-- `(?:pp?\.?\s*)?`: the optional "p."/"pp." page marker. -/
def ibidPp (k : List Char → Option (Option String)) (cs : List Char) : Option (Option String) :=
  (pLit ['p'] (pOptChar 'p' (pOptChar '.' (pStar isPyWhitespace k))) cs) <|> k cs

/-- `(?:at\s+|[,.]?\s*)?`: the optional separator before a page number. -/
def ibidSep (k : List Char → Option (Option String)) (cs : List Char) : Option (Option String) :=
  (pLit ['a', 't'] (pPlus isPyWhitespace k) cs) <|>
  (pOptPred (fun c => c == ',' || c == '.') (pStar isPyWhitespace k) cs) <|>
  k cs

/-- The whole optional page tail `(?:\s* sep? pp? (page)?)?` followed by `\.?$`. -/
def ibidTail (cs : List Char) : Option (Option String) :=
  (pStar isPyWhitespace (fun cs1 => ibidSep (fun cs2 => ibidPp ibidCap cs2) cs1) cs) <|>
  ibidFinish none cs

/-- `^(?:ibid\.?|ibidem\.?|id\.?)` and then the tail; the three alternatives are
tried left to right with full backtracking into the rest of the pattern. -/
def ibidCore (cs : List Char) : Option (Option String) :=
  (pLit ['i', 'b', 'i', 'd'] (pOptChar '.' ibidTail) cs) <|>
  (pLit ['i', 'b', 'i', 'd', 'e', 'm'] (pOptChar '.' ibidTail) cs) <|>
  (pLit ['i', 'd'] (pOptChar '.' ibidTail) cs)

/-- `IBID_PATTERN.match(cleaned)`: `some g` is a match whose group 1 is `g`.
`re.IGNORECASE` is modelled by lowercasing the input; group 1 consists of
digits and dashes only, so its text is unaffected. -/
def ibidMatch (cleaned : String) : Option (Option String) :=
  ibidCore (pyLower cleaned).data

/-- `is_ibid` from `document_processor.py`: empty text is falsy, otherwise the
stripped text is matched against `IBID_PATTERN`. -/
def is_ibid (text : String) : Bool :=
  if text == "" then false
  else (ibidMatch (pyStrip text)).isSome

/-- `extract_ibid_page` from `document_processor.py`: group 1 of the match,
stripped, when the match exists and the group is non-empty. -/
def extract_ibid_page (text : String) : Option String :=
  if text == "" then none
  else
    match ibidMatch (pyStrip text) with
    | some (some g) => if g != "" then some (pyStrip g) else none
    | _ => none

/-! ### URL and DOI normalization, source keys -/

/-- `normalize_url` from `document_processor.py`: empty in, empty out;
otherwise strip, lowercase, remove trailing slashes, and truncate at `?`. -/
def normalize_url (url : String) : String :=
  if url == "" then ""
  else truncateAtQuery (rstripSlashes (pyLower (pyStrip url)))

/-- `urls_match` from `document_processor.py`: both URLs truthy and equal
after normalization. -/
def urls_match (url1 url2 : Option String) : Bool :=
  if !truthyS url1 || !truthyS url2 then false
  else normalize_url (url1.getD "") == normalize_url (url2.getD "")

/-- Modelled from the spec: `normalize_doi` is defined in `models.py`, which is
not among the provided sources.  Per spec §4.3 a DOI is normalized by
lowercasing it and stripping a resolver prefix (a doi.org resolver URL or a
`doi:` scheme); surrounding whitespace is trimmed. -/
def normalize_doi (doi : String) : String :=
  let d := pyLower (pyStrip doi)
  if pyStartsWith d "https://doi.org/" then pyDrop d 16
  else if pyStartsWith d "http://doi.org/" then pyDrop d 15
  else if pyStartsWith d "https://dx.doi.org/" then pyDrop d 19
  else if pyStartsWith d "http://dx.doi.org/" then pyDrop d 18
  else if pyStartsWith d "doi:" then pyDrop d 4
  else d

/-- The fields of `CitationMetadata` (`models.py`, described in spec §3) that
the document processor reads via `getattr`: identity fields, title/authors,
and the non-identifying provenance field `raw_source`. -/
structure CitationMetadata where
  doi : Option String := none
  url : Option String := none
  case_name : Option String := none
  citation : Option String := none
  title : Option String := none
  authors : List String := []
  raw_source : Option String := none
deriving Repr, DecidableEq

/-- Priority 1 of `generate_source_key`: a truthy DOI whose normalization is
truthy yields `doi:<normalized>`. -/
def sourceKeyDoi (m : CitationMetadata) : Option String :=
  match m.doi with
  | some d =>
    if d != "" then
      if normalize_doi d != "" then some ("doi:" ++ normalize_doi d) else none
    else none
  | none => none

/-- Priority 2: a truthy URL yields `url:<normalized>`. -/
def sourceKeyUrl (m : CitationMetadata) : Option String :=
  match m.url with
  | some u => if u != "" then some ("url:" ++ normalize_url u) else none
  | none => none

/-- Priority 3: truthy case name and citation yield `legal:<name>|<citation>`. -/
def sourceKeyLegal (m : CitationMetadata) : Option String :=
  match m.case_name, m.citation with
  | some c, some ci =>
    if c != "" && ci != "" then
      some ("legal:" ++ lowerStrip c ++ "|" ++ lowerStrip ci)
    else none
  | _, _ => none

/-- The `|author:` suffix appended when the author list is nonempty. -/
def authorSuffix : List String → String
  | [] => ""
  | a :: _ => "|author:" ++ lowerStrip a

/-- Priority 4: a truthy title yields `title:<title>` with the author suffix. -/
def sourceKeyTitle (m : CitationMetadata) : Option String :=
  match m.title with
  | some t => if t != "" then some ("title:" ++ lowerStrip t ++ authorSuffix m.authors) else none
  | none => none

/-- Priority 5: a truthy case name alone yields `case:<name>`. -/
def sourceKeyCase (m : CitationMetadata) : Option String :=
  match m.case_name with
  | some c => if c != "" then some ("case:" ++ lowerStrip c) else none
  | none => none

/-- `generate_source_key` from `document_processor.py`: the five priority
steps, first non-`None` wins, `None` when all fall through. -/
def generate_source_key (m : CitationMetadata) : Option String :=
  sourceKeyDoi m <|> sourceKeyUrl m <|> sourceKeyLegal m <|> sourceKeyTitle m <|> sourceKeyCase m

/-- `sources_match` from `document_processor.py`: both keys present and equal. -/
def sources_match (m1 m2 : CitationMetadata) : Bool :=
  match generate_source_key m1, generate_source_key m2 with
  | some k1, some k2 => k1 == k2
  | _, _ => false

/-! ### Citation history -/

/-- `CitationHistoryEntry` from `document_processor.py`. -/
structure CitationHistoryEntry where
  metadata : CitationMetadata
  formatted : String
  source_key : Option String
  note_number : Nat
deriving Repr, DecidableEq

/-- `CitationHistory` state: the previous entry, the first-occurrence map
(an association list keyed by source key), and the note counter. -/
structure CitationHistory where
  previous : Option CitationHistoryEntry := none
  all_sources : List (String × CitationHistoryEntry) := []
  note_counter : Nat := 0
deriving Repr, DecidableEq

/-- The freshly constructed history of a document-processing run. -/
def emptyHistory : CitationHistory := {}

/-- `CitationHistory.add`: bump the counter, build the entry, point `previous`
at it, and record it in `all_sources` only when its key is present and not
yet recorded (first occurrence wins). -/
def CitationHistory.add (h : CitationHistory) (metadata : CitationMetadata)
    (formatted : String) : CitationHistory :=
  let counter := h.note_counter + 1
  let key := generate_source_key metadata
  let entry : CitationHistoryEntry :=
    { metadata := metadata, formatted := formatted, source_key := key, note_number := counter }
  { previous := some entry
    all_sources :=
      match key with
      | some k =>
        if (h.all_sources.lookup k).isNone then (k, entry) :: h.all_sources else h.all_sources
      | none => h.all_sources
    note_counter := counter }

/-- `CitationHistory.is_same_as_previous`. -/
def CitationHistory.is_same_as_previous (h : CitationHistory) (m : CitationMetadata) : Bool :=
  match h.previous with
  | none => false
  | some e => sources_match m e.metadata

/-- `CitationHistory.has_been_cited_before`. -/
def CitationHistory.has_been_cited_before (h : CitationHistory) (m : CitationMetadata) : Bool :=
  match generate_source_key m with
  | none => false
  | some k => (h.all_sources.lookup k).isSome

/-- `CitationHistory.get_previous_metadata`. -/
def CitationHistory.get_previous_metadata (h : CitationHistory) : Option CitationMetadata :=
  h.previous.map (fun e => e.metadata)

/-- `CitationHistory.get_previous_url`. -/
def CitationHistory.get_previous_url (h : CitationHistory) : Option String :=
  match h.previous with
  | some e => e.metadata.url
  | none => none

/-- `CitationHistory.addAll`: a sequence of `add` operations in order. -/
def CitationHistory.addAll (h : CitationHistory) (ops : List (CitationMetadata × String)) :
    CitationHistory :=
  ops.foldl (fun acc p => acc.add p.1 p.2) h

/-! ### Formatting and the per-note decision procedure -/

/-- `BaseFormatter.format_ibid` from `formatters/base.py`:
`"Ibid., <page>."` for a truthy page, else `"Ibid."`. -/
def format_ibid (page : Option String) : String :=
  match page with
  | some p => if p != "" then "Ibid., " ++ p ++ "." else "Ibid."
  | none => "Ibid."

/-- `ProcessedCitation` from `document_processor.py`. -/
structure ProcessedCitation where
  original : String
  formatted : String
  metadata : Option CitationMetadata
  url : Option String
  success : Bool
  error : Option String := none
  citation_form : String := "full"
deriving Repr, DecidableEq

/-- The `current_url` computation at the head of Case 2 of
`process_single_note`: the metadata URL if truthy, else the stripped note
text when it starts with `http`, else the metadata URL unchanged. -/
def compute_current_url (metadata : CitationMetadata) (original_text : String) : Option String :=
  if truthyS metadata.url then metadata.url
  else if pyStartsWith (pyStrip original_text) "http" then some (pyStrip original_text)
  else metadata.url

/-- `process_single_note` from `document_processor.py` (the decision
procedure; the XML write-backs are collaborator side effects outside this
embedding).  `get_citation` stands for the unified router's resolution of
the note text — the pair it returns — and `format_short` for the style
formatter's short form.  Returns the `ProcessedCitation` and the history
after the note. -/
def process_single_note
    (get_citation : String → Option CitationMetadata × Option String)
    (format_short : CitationMetadata → String)
    (history : CitationHistory) (original_text : String) :
    ProcessedCitation × CitationHistory :=
  -- Case 1: explicit ibid reference
  if is_ibid original_text then
    match history.get_previous_metadata with
    | none =>
      ({ original := original_text, formatted := original_text, metadata := none, url := none,
         success := false, error := some "ibid reference but no previous citation found",
         citation_form := "ibid" }, history)
    | some previous_metadata =>
      ({ original := original_text,
         formatted := format_ibid (extract_ibid_page original_text),
         metadata := some previous_metadata, url := history.get_previous_url,
         success := true, error := none, citation_form := "ibid" }, history)
  else
    match get_citation original_text with
    | (some metadata, some full_formatted) =>
      if full_formatted == "" then
        ({ original := original_text, formatted := original_text, metadata := none, url := none,
           success := false, error := some "No metadata found", citation_form := "full" },
         history)
      else
        -- Case 2: same URL as previous
        if truthyS (compute_current_url metadata original_text) &&
            truthyS history.get_previous_url &&
            urls_match (compute_current_url metadata original_text) history.get_previous_url then
          ({ original := original_text, formatted := format_ibid none,
             metadata := history.get_previous_metadata,
             url := compute_current_url metadata original_text,
             success := true, error := none, citation_form := "ibid" }, history)
        -- Case 3: same source as previous
        else if history.is_same_as_previous metadata then
          ({ original := original_text, formatted := format_ibid none,
             metadata := some metadata, url := compute_current_url metadata original_text,
             success := true, error := none, citation_form := "ibid" }, history)
        -- Case 4: previously cited, not immediately prior
        else if history.has_been_cited_before metadata then
          ({ original := original_text, formatted := format_short metadata,
             metadata := some metadata, url := compute_current_url metadata original_text,
             success := true, error := none, citation_form := "short" },
           history.add metadata (format_short metadata))
        -- Case 5: new source
        else
          ({ original := original_text, formatted := full_formatted,
             metadata := some metadata, url := compute_current_url metadata original_text,
             success := true, error := none, citation_form := "full" },
           history.add metadata full_formatted)
    | _ =>
      ({ original := original_text, formatted := original_text, metadata := none, url := none,
         success := false, error := some "No metadata found", citation_form := "full" },
       history)

/-- The marker loop of `process_document`: fold `process_single_note` over the
note texts in document order, collecting one `ProcessedCitation` each. -/
def process_notes
    (get_citation : String → Option CitationMetadata × Option String)
    (format_short : CitationMetadata → String) :
    CitationHistory → List String → List ProcessedCitation × CitationHistory
  | h, [] => ([], h)
  | h, t :: ts =>
    let r := process_single_note get_citation format_short h t
    let rest := process_notes get_citation format_short r.2 ts
    (r.1 :: rest.1, rest.2)

/-! ### The engine races

`router.py`'s `_search_engines_parallel` and `unified_router.py`'s
`_route_journal` are sequentialized over the list of engine completions
observed by the `as_completed` loop, in completion order.  Each event is an
engine name together with what `future.result` does: raise (`Except.error`)
or return `None` / a metadata value (`Except.ok`).  An elapsed race timeout
truncates the event list (its `timedOut` flag records that `as_completed`
raised `concurrent.futures.TimeoutError` after the listed completions).
The races are polymorphic in the metadata type, with the
`has_minimum_data` gate (`models.py`, absent from the sources) and the
DOI-truthiness test abstracted as the parameters `valid` and `hasDoi` —
the race logic inspects results only through these two tests. -/

/-- One completed engine future: its name and the outcome of `future.result`. -/
abbrev RaceEvent (α : Type) := String × Except String (Option α)

/-- An event contributes a usable result: `future.result` returned a value
that is non-`None` and passes `has_minimum_data`. -/
def validEvent {α : Type} (valid : α → Bool) (e : RaceEvent α) : Bool :=
  match e.2 with
  | Except.ok (some r) => valid r
  | _ => false

/-- `_search_engines_parallel` (`router.py`): scan completions in order and
return the first valid result; per-future exceptions are caught and skipped;
the `FuturesTimeout` of `as_completed` is caught, falling through to `None`
(the timeout only truncates the event list). -/
def search_engines_parallel {α : Type} (valid : α → Bool) : List (RaceEvent α) → Option α
  | [] => none
  | e :: rest =>
    match e.2 with
    | Except.ok (some r) => if valid r then some r else search_engines_parallel valid rest
    | _ => search_engines_parallel valid rest

/-- The collection phase of `_route_journal` (`unified_router.py`): every valid
result completing within the race window, in completion order. -/
def routeJournalResults {α : Type} (valid : α → Bool) (events : List (RaceEvent α)) : List α :=
  events.filterMap fun e =>
    match e.2 with
    | Except.ok (some r) => if valid r then some r else none
    | _ => none

/-- The selection after `_route_journal`'s loop: the first collected result
carrying a DOI if any does, else the first collected result, else `None`. -/
def route_journal_pick {α : Type} (valid : α → Bool) (hasDoi : α → Bool)
    (events : List (RaceEvent α)) : Option α :=
  let results := routeJournalResults valid events
  match results.find? hasDoi with
  | some r => some r
  | none => results.head?

/-- `_route_journal`'s parallel race including its exception behavior: the
`for future in as_completed(futures, timeout=PARALLEL_TIMEOUT)` loop has no
enclosing handler in `unified_router.py`, so when the aggregate timeout
elapses with futures still pending, `concurrent.futures.TimeoutError`
propagates to the caller instead of yielding a value. -/
def route_journal_run {α : Type} (valid : α → Bool) (hasDoi : α → Bool)
    (events : List (RaceEvent α)) (timedOut : Bool) : Except String (Option α) :=
  if timedOut then Except.error "concurrent.futures.TimeoutError"
  else Except.ok (route_journal_pick valid hasDoi events)

/-! ### Concrete scenario data -/

/-- Metadata Jones's book resolves to (identical for every Jones marker). -/
def jonesMeta : CitationMetadata :=
  { title := some "The Great War", authors := ["Jones"],
    raw_source := some "Jones, The Great War (New York: Acme, 1990)" }

/-- Metadata Smith's book resolves to. -/
def smithMeta : CitationMetadata :=
  { title := some "Other Book", authors := ["Smith"],
    raw_source := some "Smith, Other Book (Boston: Beta, 2001)" }

/-- A resolution oracle for the five-marker scenario: Jones's and Smith's
marker texts resolve to their metadata with a full formatted string. -/
def scenarioResolve : String → Option CitationMetadata × Option String :=
  fun t =>
    if t == "Jones, The Great War (New York: Acme, 1990)" then
      (some jonesMeta, some "Jones full citation")
    else if t == "Smith, Other Book (Boston: Beta, 2001)" then
      (some smithMeta, some "Smith full citation")
    else (none, none)

/-- A concrete short-form formatter for the scenarios. -/
def scenarioShort : CitationMetadata → String := fun _ => "scenario short form"

/-- The five markers of the end-to-end scenario, in document order. -/
def scenarioMarkers : List String :=
  ["Jones, The Great War (New York: Acme, 1990)",
   "ibid.",
   "Jones, The Great War (New York: Acme, 1990)",
   "Smith, Other Book (Boston: Beta, 2001)",
   "Jones, The Great War (New York: Acme, 1990)"]

/-- A history whose previous entry is Jones's full citation (note number 1). -/
def c2History : CitationHistory := emptyHistory.add jonesMeta "Jones full citation"

/-- Metadata with no derivable identifying field: every source-key step falls
through, so its source key is null. -/
def nullKeyMeta : CitationMetadata := { raw_source := some "an unidentifiable scrawl" }

/-- A resolution oracle that resolves every marker to the null-key metadata. -/
def nullKeyResolve : String → Option CitationMetadata × Option String :=
  fun _ => (some nullKeyMeta, some "unidentifiable full citation")

/-- Two records sharing a DOI but differing in every non-identifying field. -/
def doiMetaA : CitationMetadata :=
  { doi := some "10.1234/ABC", title := some "One Title", authors := ["A. Author"],
    raw_source := some "first raw text" }

/-- See `doiMetaA`: same DOI, different descriptive and provenance fields. -/
def doiMetaB : CitationMetadata :=
  { doi := some "10.1234/ABC", title := some "Another Title", authors := ["B. Writer"],
    url := some "https://example.org/b", raw_source := some "second raw text" }

/-- Completion-ordered events of the 1s/3s/10s race, every engine returning a
minimally complete record; results stand for the engines' metadata. -/
def c3Events : List (RaceEvent Nat) :=
  [("1s engine", Except.ok (some 1)),
   ("3s engine", Except.ok (some 3)),
   ("10s engine", Except.ok (some 10))]

/-- Completion-ordered events in which no engine yields a valid record: one
raises, one returns None, one returns a record failing the minimum-data gate. -/
def c4Events : List (RaceEvent Nat) :=
  [("engine A", Except.error "transport error"),
   ("engine B", Except.ok none),
   ("engine C", Except.ok (some 7))]


/-- C9: the marker text "Id. at 245" matches the ibid pattern with extracted
page "245"; its formatted replacement is exactly "Ibid., 245."; and against
any history with a previous citation it is classified ibid with that
formatted text. -/
theorem c9_id_at_245
    (gc : String → Option CitationMetadata × Option String)
    (fs : CitationMetadata → String) (h : CitationHistory)
    (e : CitationHistoryEntry) (hprev : h.previous = some e) :
    is_ibid "Id. at 245" = true
    ∧ extract_ibid_page "Id. at 245" = some "245"
    ∧ format_ibid (extract_ibid_page "Id. at 245") = "Ibid., 245."
    ∧ (process_single_note gc fs h "Id. at 245").1.citation_form = "ibid"
    ∧ (process_single_note gc fs h "Id. at 245").1.formatted = "Ibid., 245." := by
  have hib : is_ibid "Id. at 245" = true := rfl
  refine ⟨rfl, rfl, rfl, ?_, ?_⟩
  · unfold process_single_note
    rw [hib]
    simp [CitationHistory.get_previous_metadata, hprev]
  · unfold process_single_note
    rw [hib]
    simp [CitationHistory.get_previous_metadata, hprev]
    rfl

/-- C9 witness: the statement at a concrete history whose previous citation
is Jones's entry. -/
theorem c9_id_at_245_witness :
    extract_ibid_page "Id. at 245" = some "245"
    ∧ (process_single_note scenarioResolve scenarioShort c2History "Id. at 245").1.formatted
        = "Ibid., 245." := by
  have h := c9_id_at_245 scenarioResolve scenarioShort c2History
    { metadata := jonesMeta, formatted := "Jones full citation",
      source_key := some "title:the great war|author:jones", note_number := 1 } rfl
  exact ⟨h.2.1, h.2.2.2.2⟩

/-- C10: `is_ibid` accepts the bare two-letter word "id" in every letter
casing, with or without a trailing period and with or without a page suffix;
consequently a note whose entire text is "id" is rewritten to "Ibid." with
citation_form ibid whenever a previous citation exists, independently of any
metadata resolution (the resolver is never consulted). -/
theorem c10_bare_id_is_ibid :
    (is_ibid "id" = true ∧ is_ibid "Id" = true ∧ is_ibid "iD" = true ∧ is_ibid "ID" = true
     ∧ is_ibid "id." = true ∧ is_ibid "Id." = true ∧ is_ibid "iD." = true
     ∧ is_ibid "ID." = true
     ∧ is_ibid "id 45" = true ∧ is_ibid "Id 45" = true ∧ is_ibid "iD 45" = true
     ∧ is_ibid "ID 45" = true)
    ∧ (∀ (gc gc2 : String → Option CitationMetadata × Option String)
         (fs fs2 : CitationMetadata → String) (h : CitationHistory)
         (e : CitationHistoryEntry), h.previous = some e →
       (process_single_note gc fs h "id").1.citation_form = "ibid"
       ∧ (process_single_note gc fs h "id").1.formatted = "Ibid."
       ∧ process_single_note gc fs h "id" = process_single_note gc2 fs2 h "id") := by
  constructor
  · exact ⟨rfl, rfl, rfl, rfl, rfl, rfl, rfl, rfl, rfl, rfl, rfl, rfl⟩
  · intro gc gc2 fs fs2 h e hprev
    have hib : is_ibid "id" = true := rfl
    refine ⟨?_, ?_, ?_⟩
    · unfold process_single_note
      rw [hib]
      simp [CitationHistory.get_previous_metadata, hprev]
    · unfold process_single_note
      rw [hib]
      simp [CitationHistory.get_previous_metadata, hprev]
      rfl
    · unfold process_single_note
      rw [hib]
      simp [CitationHistory.get_previous_metadata, hprev]

/-- C10 witness: the processing conclusions at a concrete history, with two
resolvers that disagree on "id" (the resolution is never consulted). -/
theorem c10_bare_id_is_ibid_witness :
    (process_single_note scenarioResolve scenarioShort c2History "id").1.formatted = "Ibid."
    ∧ process_single_note scenarioResolve scenarioShort c2History "id"
      = process_single_note nullKeyResolve (fun _ => "other short") c2History "id" := by
  have h := c10_bare_id_is_ibid.2 scenarioResolve nullKeyResolve scenarioShort
    (fun _ => "other short") c2History
    { metadata := jonesMeta, formatted := "Jones full citation",
      source_key := some "title:the great war|author:jones", note_number := 1 } rfl
  exact ⟨h.2.1, h.2.2⟩

end CitePerfect

namespace CitePerfect

/-- C1: for the five-marker document Jones / "ibid." / Jones / Smith / Jones,
with every Jones marker resolving to identical metadata, the per-marker
decision procedure of `process_document` produces the citation forms
[full, ibid, ibid, full, short]: marker 3 continues as ibid via source-key
match to the previous entry, and marker 5 is short because its source key is
in `all_sources` while its immediate predecessor is Smith. -/
theorem c1_five_marker_forms :
    ((process_notes scenarioResolve scenarioShort emptyHistory scenarioMarkers).1.map
      (fun r => r.citation_form)) = ["full", "ibid", "ibid", "full", "short"] := by
  rfl

/-- C2 counterexample: processing the explicit ibid marker "ibid." against a
history whose previous entry is Jones (note number 1) classifies it as ibid,
yet the returned history is the input history unchanged — `previous` still
holds the old entry with note number 1 and the counter is still 1, so
`previous` is not updated to a new entry for this marker as the claim
states (a new entry would carry note number 2). -/
theorem c2_counterexample :
    ((process_single_note scenarioResolve scenarioShort c2History "ibid.").1.citation_form
      = "ibid")
    ∧ (process_single_note scenarioResolve scenarioShort c2History "ibid.").2 = c2History
    ∧ ((process_single_note scenarioResolve scenarioShort c2History "ibid.").2.previous.map
        (fun e => e.note_number)) = some 1
    ∧ (process_single_note scenarioResolve scenarioShort c2History "ibid.").2.note_counter = 1 :=
  ⟨rfl, rfl, rfl, rfl⟩

/-- C2 amended: for every marker classified as ibid (explicit marker, URL
match, or source-key match to the previous citation), the history is
returned entirely unchanged — `previous` is NOT updated and `all_sources`
is not updated either. -/
theorem c2_amended
    (gc : String → Option CitationMetadata × Option String)
    (fs : CitationMetadata → String) (h : CitationHistory) (t : String)
    (hform : (process_single_note gc fs h t).1.citation_form = "ibid") :
    (process_single_note gc fs h t).2 = h := by
  unfold process_single_note at hform ⊢
  split
  · split <;> rfl
  · rename_i hib
    split
    · rename_i m f hgc
      split
      · rfl
      · rename_i hff
        split
        · rfl
        · rename_i hurl
          split
          · rfl
          · rename_i hsame
            split
            · rename_i hcited
              exfalso
              simp [hib, hgc, hff, hurl, hsame, hcited] at hform
            · rename_i hcited
              exfalso
              simp [hib, hgc, hff, hurl, hsame, hcited] at hform
    · rfl

/-- C2 witness: the amended statement at the concrete ibid marker above. -/
theorem c2_amended_witness :
    (process_single_note scenarioResolve scenarioShort c2History "ibid.").2 = c2History :=
  c2_amended scenarioResolve scenarioShort c2History "ibid." (by rfl)

/-- Every marker produces exactly one `ProcessedCitation`: the loop never
halts early, whatever each marker's outcome. -/
theorem process_notes_length
    (gc : String → Option CitationMetadata × Option String)
    (fs : CitationMetadata → String) :
    ∀ (ts : List String) (h : CitationHistory),
      (process_notes gc fs h ts).1.length = ts.length := by
  intro ts
  induction ts with
  | nil => intro h; rfl
  | cons t ts ih =>
    intro h
    simpa [process_notes] using ih (process_single_note gc fs h t).2

/-- C5: a marker matching the explicit ibid pattern while no previous citation
is recorded yields a `ProcessedCitation` with citation_form ibid,
success = false and the descriptive error, the history is unchanged, and
processing continues: a document starting with such a marker still yields
one result per marker. -/
theorem c5_ibid_without_predecessor
    (gc : String → Option CitationMetadata × Option String)
    (fs : CitationMetadata → String) (h : CitationHistory) (t : String)
    (hib : is_ibid t = true) (hprev : h.previous = none) :
    (process_single_note gc fs h t).1 =
      { original := t, formatted := t, metadata := none, url := none,
        success := false, error := some "ibid reference but no previous citation found",
        citation_form := "ibid" }
    ∧ (process_single_note gc fs h t).2 = h
    ∧ ∀ ts : List String, (process_notes gc fs h (t :: ts)).1.length = ts.length + 1 := by
  refine ⟨?_, ?_, ?_⟩
  · unfold process_single_note
    rw [hib]
    simp [CitationHistory.get_previous_metadata, hprev]
  · unfold process_single_note
    rw [hib]
    simp [CitationHistory.get_previous_metadata, hprev]
  · intro ts
    simpa using process_notes_length gc fs (t :: ts) h

/-- C5 witness: the statement at the concrete first marker "ibid." of an
otherwise well-formed two-marker document. -/
theorem c5_witness :
    ((process_single_note scenarioResolve scenarioShort emptyHistory "ibid.").1 =
      { original := "ibid.", formatted := "ibid.", metadata := none, url := none,
        success := false, error := some "ibid reference but no previous citation found",
        citation_form := "ibid" })
    ∧ (process_notes scenarioResolve scenarioShort emptyHistory
        ["ibid.", "Jones, The Great War (New York: Acme, 1990)"]).1.length = 2 := by
  have h := c5_ibid_without_predecessor scenarioResolve scenarioShort emptyHistory "ibid."
    (by rfl) (by rfl)
  exact ⟨h.1, by simpa using h.2.2 ["Jones, The Great War (New York: Acme, 1990)"]⟩

/-- The DOI step wins whenever the DOI is truthy with a truthy normalization. -/
theorem generate_source_key_doi (m : CitationMetadata) (d : String)
    (h1 : m.doi = some d) (h2 : d ≠ "") (h3 : normalize_doi d ≠ "") :
    generate_source_key m = some ("doi:" ++ normalize_doi d) := by
  simp [generate_source_key, sourceKeyDoi, h1, h2, h3]

/-- C6: `generate_source_key` applies the priority chain first-non-empty-wins —
normalized DOI, then normalized URL (guarded by the raw URL being truthy),
then the lowercased/stripped case_name|citation pair, then the title with an
optional first-author suffix, then case_name alone, and null if none apply;
it never reads non-identifying fields such as raw_source, and two records
with the same truthy DOI get equal keys whatever their other fields. -/
theorem c6_source_key_priority :
    (∀ (m : CitationMetadata) (d : String),
       m.doi = some d → d ≠ "" → normalize_doi d ≠ "" →
       generate_source_key m = some ("doi:" ++ normalize_doi d))
    ∧ (∀ (m : CitationMetadata) (u : String),
       sourceKeyDoi m = none → m.url = some u → u ≠ "" →
       generate_source_key m = some ("url:" ++ normalize_url u))
    ∧ (∀ (m : CitationMetadata) (c ci : String),
       sourceKeyDoi m = none → sourceKeyUrl m = none →
       m.case_name = some c → m.citation = some ci → c ≠ "" → ci ≠ "" →
       generate_source_key m = some ("legal:" ++ lowerStrip c ++ "|" ++ lowerStrip ci))
    ∧ (∀ (m : CitationMetadata) (t : String),
       sourceKeyDoi m = none → sourceKeyUrl m = none → sourceKeyLegal m = none →
       m.title = some t → t ≠ "" →
       generate_source_key m = some ("title:" ++ lowerStrip t ++ authorSuffix m.authors))
    ∧ (∀ (m : CitationMetadata) (c : String),
       sourceKeyDoi m = none → sourceKeyUrl m = none → sourceKeyLegal m = none →
       sourceKeyTitle m = none → m.case_name = some c → c ≠ "" →
       generate_source_key m = some ("case:" ++ lowerStrip c))
    ∧ (∀ (m : CitationMetadata),
       sourceKeyDoi m = none → sourceKeyUrl m = none → sourceKeyLegal m = none →
       sourceKeyTitle m = none → sourceKeyCase m = none →
       generate_source_key m = none)
    ∧ (∀ (m : CitationMetadata) (s : Option String),
       generate_source_key { m with raw_source := s } = generate_source_key m)
    ∧ (∀ (m1 m2 : CitationMetadata) (d : String),
       m1.doi = some d → m2.doi = some d → d ≠ "" → normalize_doi d ≠ "" →
       generate_source_key m1 = generate_source_key m2) := by
  refine ⟨?_, ?_, ?_, ?_, ?_, ?_, ?_, ?_⟩
  · exact generate_source_key_doi
  · intro m u h0 h1 h2
    simp [generate_source_key, sourceKeyUrl, h0, h1, h2]
  · intro m c ci h0 h1 hc hci hc1 hc2
    simp [generate_source_key, sourceKeyLegal, h0, h1, hc, hci, hc1, hc2]
  · intro m t h0 h1 h2 ht ht1
    simp [generate_source_key, sourceKeyTitle, h0, h1, h2, ht, ht1]
  · intro m c h0 h1 h2 h3 hc hc1
    simp [generate_source_key, sourceKeyCase, h0, h1, h2, h3, hc, hc1]
  · intro m h0 h1 h2 h3 h4
    simp [generate_source_key, h0, h1, h2, h3, h4]
  · intro m s
    simp [generate_source_key, sourceKeyDoi, sourceKeyUrl, sourceKeyLegal, sourceKeyTitle,
      sourceKeyCase]
  · intro m1 m2 d ha hb h1 h2
    rw [generate_source_key_doi m1 d ha h1 h2, generate_source_key_doi m2 d hb h1 h2]

/-- C6 witness: the DOI clause and the DOI-equality clause at the two concrete
records `doiMetaA`/`doiMetaB`, which differ in all non-identifying fields. -/
theorem c6_source_key_priority_witness :
    generate_source_key doiMetaA = some ("doi:" ++ normalize_doi "10.1234/ABC")
    ∧ generate_source_key doiMetaA = generate_source_key doiMetaB :=
  ⟨c6_source_key_priority.1 doiMetaA "10.1234/ABC" rfl (by decide) (by decide),
   c6_source_key_priority.2.2.2.2.2.2.2 doiMetaA doiMetaB "10.1234/ABC" rfl rfl
     (by decide) (by decide)⟩

/-- A record with a null source key matches nothing. -/
theorem sources_match_of_none (m m2 : CitationMetadata)
    (h : generate_source_key m = none) :
    sources_match m m2 = false ∧ sources_match m2 m = false := by
  unfold sources_match
  rw [h]
  cases generate_source_key m2 <;> exact ⟨rfl, rfl⟩

/-- C7: null source keys never merge — `sources_match` is false whenever either
key is null, and a non-ibid marker whose resolved metadata has a null key and
does not URL-match the previous citation is classified full (never ibid or
short via source-key matching). -/
theorem c7_null_key_never_merges :
    (∀ m1 m2 : CitationMetadata,
       generate_source_key m1 = none ∨ generate_source_key m2 = none →
       sources_match m1 m2 = false)
    ∧ (∀ (gc : String → Option CitationMetadata × Option String)
         (fs : CitationMetadata → String) (h : CitationHistory) (t : String)
         (m : CitationMetadata) (f : String),
       is_ibid t = false → gc t = (some m, some f) → f ≠ "" →
       generate_source_key m = none →
       (truthyS (compute_current_url m t) && truthyS h.get_previous_url &&
         urls_match (compute_current_url m t) h.get_previous_url) = false →
       (process_single_note gc fs h t).1.citation_form = "full") := by
  constructor
  · intro m1 m2 hk
    rcases hk with hk | hk
    · exact (sources_match_of_none m1 m2 hk).1
    · exact (sources_match_of_none m2 m1 hk).2
  · intro gc fs h t m f hib hgc hf hkey hurl
    have hsame : h.is_same_as_previous m = false := by
      unfold CitationHistory.is_same_as_previous
      cases h.previous with
      | none => rfl
      | some e => exact (sources_match_of_none m e.metadata hkey).1
    have hcited : h.has_been_cited_before m = false := by
      unfold CitationHistory.has_been_cited_before
      rw [hkey]
    unfold process_single_note
    rw [hib]
    simp only [Bool.false_eq_true, if_false, hgc]
    rw [if_neg (by simp [hf]), if_neg (by simp [hurl]), if_neg (by simp [hsame]),
      if_neg (by simp [hcited])]

/-- C7 witness: two textually identical records with no identifying fields at
all do not merge, and the corresponding marker is classified full. -/
theorem c7_null_key_never_merges_witness :
    sources_match nullKeyMeta nullKeyMeta = false
    ∧ (process_single_note nullKeyResolve scenarioShort emptyHistory
        "an unidentifiable scrawl").1.citation_form = "full" :=
  ⟨c7_null_key_never_merges.1 nullKeyMeta nullKeyMeta (Or.inl rfl),
   c7_null_key_never_merges.2 nullKeyResolve scenarioShort emptyHistory
     "an unidentifiable scrawl" nullKeyMeta "unidentifiable full citation"
     rfl rfl (by decide) rfl rfl⟩

/-- One `add` never overwrites an existing `all_sources` entry. -/
theorem add_preserves_all_sources (h : CitationHistory) (m : CitationMetadata)
    (f k : String) (e : CitationHistoryEntry)
    (hl : h.all_sources.lookup k = some e) :
    ((h.add m f).all_sources.lookup k) = some e := by
  unfold CitationHistory.add
  cases hgk : generate_source_key m with
  | none => simpa using hl
  | some k2 =>
    by_cases hmem : (h.all_sources.lookup k2).isNone
    · have hne : (k == k2) = false := by
        rw [beq_eq_false_iff_ne]
        intro heq
        rw [← heq, hl] at hmem
        simp at hmem
      simp [hmem, List.lookup, hne, hl]
    · simp [hmem, hl]

/-- C8: `all_sources` maps each key to the entry recorded at that key's first
occurrence: an entry once recorded survives any later sequence of `add`
operations unchanged, and the first `add` of a not-yet-recorded key records
exactly the entry built for that citation. -/
theorem c8_first_occurrence_never_overwritten :
    (∀ (ops : List (CitationMetadata × String)) (h : CitationHistory) (k : String)
       (e : CitationHistoryEntry),
       h.all_sources.lookup k = some e →
       (h.addAll ops).all_sources.lookup k = some e)
    ∧ (∀ (h : CitationHistory) (m : CitationMetadata) (f k : String),
       h.all_sources.lookup k = none → generate_source_key m = some k →
       (h.add m f).all_sources.lookup k =
         some { metadata := m, formatted := f, source_key := some k,
                note_number := h.note_counter + 1 }) := by
  constructor
  · intro ops
    induction ops with
    | nil => intro h k e hl; exact hl
    | cons op ops ih =>
      intro h k e hl
      have step := add_preserves_all_sources h op.1 op.2 k e hl
      simpa [CitationHistory.addAll] using ih (h.add op.1 op.2) k e step
  · intro h m f k hl hk
    unfold CitationHistory.add
    rw [hk]
    simp [hl, List.lookup]

/-- C8 witness: after Jones is re-added and Smith is added, Jones's key still
maps to the original first-occurrence entry with note number 1. -/
theorem c8_first_occurrence_witness :
    ((emptyHistory.add jonesMeta "Jones full citation").addAll
        [(jonesMeta, "scenario short form"), (smithMeta, "Smith full citation")]).all_sources.lookup
      "title:the great war|author:jones"
    = some { metadata := jonesMeta, formatted := "Jones full citation",
             source_key := some "title:the great war|author:jones", note_number := 1 } :=
  c8_first_occurrence_never_overwritten.1
    [(jonesMeta, "scenario short form"), (smithMeta, "Smith full citation")]
    (emptyHistory.add jonesMeta "Jones full citation")
    "title:the great war|author:jones" _ (by rfl)


/-- C3 counterexample: in the 1s/3s/10s race with a 12s window, all three
engines complete with minimally complete records; when only the slowest
(10s) result carries a DOI, `_route_journal` returns the 10s engine's result
rather than the first-completed 1s result — the first-completed valid result
is what `_search_engines_parallel` would return. -/
theorem c3_counterexample :
    search_engines_parallel (fun _ : Nat => true) c3Events = some 1
    ∧ route_journal_pick (fun _ : Nat => true) (fun r => r == 10) c3Events = some 10
    ∧ route_journal_pick (fun _ : Nat => true) (fun r => r == 10) c3Events ≠ some 1 :=
  ⟨rfl, rfl, by decide⟩

/-- The first-valid race equals the head of the collected valid results. -/
theorem search_engines_parallel_eq_head {α : Type} (valid : α → Bool) :
    ∀ events : List (RaceEvent α),
      search_engines_parallel valid events = (routeJournalResults valid events).head? := by
  intro events
  induction events with
  | nil => rfl
  | cons e rest ih =>
    rcases e with ⟨name, out⟩
    rcases out with err | r
    · simpa [search_engines_parallel, routeJournalResults] using ih
    · rcases r with _ | r
      · simpa [search_engines_parallel, routeJournalResults] using ih
      · by_cases hv : valid r = true
        · simp [search_engines_parallel, routeJournalResults, hv]
        · simp only [Bool.not_eq_true] at hv
          simpa [search_engines_parallel, routeJournalResults, hv] using ih

/-- C3 amended: `router.py`'s `_search_engines_parallel` returns the first
completed result passing `has_minimum_data`, and its value is independent of
everything completing after that winner; `unified_router.py`'s
`_route_journal`, by contrast, collects all results completing within the
race window and agrees with the first-completed rule only when no collected
result carries a DOI — when some result has a DOI it returns a DOI-bearing
result, which may belong to a slower engine. -/
theorem c3_amended {α : Type} (valid : α → Bool) (hasDoi : α → Bool) :
    (∀ (pre rest : List (RaceEvent α)) (e : RaceEvent α),
       (∀ e2 ∈ pre, validEvent valid e2 = false) → validEvent valid e = true →
       ∃ r, e.2 = Except.ok (some r) ∧ valid r = true ∧
         search_engines_parallel valid (pre ++ e :: rest) = some r)
    ∧ (∀ events : List (RaceEvent α),
       (∀ r ∈ routeJournalResults valid events, hasDoi r = false) →
       route_journal_pick valid hasDoi events = search_engines_parallel valid events)
    ∧ (∀ (events : List (RaceEvent α)) (r : α),
       r ∈ routeJournalResults valid events → hasDoi r = true →
       ∃ rr, route_journal_pick valid hasDoi events = some rr ∧ hasDoi rr = true) := by
  refine ⟨?_, ?_, ?_⟩
  · intro pre
    induction pre with
    | nil =>
      intro rest e _ hv
      rcases e with ⟨name, out⟩
      rcases out with err | r
      · exact absurd hv (by simp [validEvent])
      · rcases r with _ | r
        · exact absurd hv (by simp [validEvent])
        · refine ⟨r, rfl, ?_, ?_⟩
          · simpa [validEvent] using hv
          · have hvr : valid r = true := by simpa [validEvent] using hv
            simp [search_engines_parallel, hvr]
    | cons p pre ih =>
      intro rest e hpre hv
      obtain ⟨r, hout, hvr, hrec⟩ := ih rest e (fun e2 h2 => hpre e2 (by simp [h2])) hv
      refine ⟨r, hout, hvr, ?_⟩
      have hp : validEvent valid p = false := hpre p (by simp)
      rcases p with ⟨name, out⟩
      rcases out with err | rp
      · simpa [search_engines_parallel] using hrec
      · rcases rp with _ | rp
        · simpa [search_engines_parallel] using hrec
        · have hvp : valid rp = false := by simpa [validEvent] using hp
          simpa [search_engines_parallel, hvp] using hrec
  · intro events hnodoi
    have hfind : (routeJournalResults valid events).find? hasDoi = none :=
      List.find?_eq_none.mpr (fun x hx => by simp [hnodoi x hx])
    rw [search_engines_parallel_eq_head]
    simp [route_journal_pick, hfind]
  · intro events r hmem hdoi
    rcases hfind : (routeJournalResults valid events).find? hasDoi with _ | rr
    · exact absurd (List.find?_eq_none.mp hfind r hmem) (by simp [hdoi])
    · exact ⟨rr, by simp [route_journal_pick, hfind], List.find?_some hfind⟩

/-- C3 witness: the amended statement at the concrete 1s/3s/10s events — the
1s result wins the first-valid race whatever completes later, and with no
DOI anywhere `_route_journal` agrees with the first-valid race. -/
theorem c3_amended_witness :
    (∃ r : Nat,
       (("1s engine", Except.ok (some 1)) : RaceEvent Nat).2 = Except.ok (some r)
       ∧ (fun _ : Nat => true) r = true
       ∧ search_engines_parallel (fun _ : Nat => true)
           ([] ++ ("1s engine", Except.ok (some 1)) ::
             [("3s engine", Except.ok (some 3)), ("10s engine", Except.ok (some 10))])
           = some r)
    ∧ route_journal_pick (fun _ : Nat => true) (fun _ : Nat => false) c3Events
        = search_engines_parallel (fun _ : Nat => true) c3Events :=
  ⟨(c3_amended (fun _ : Nat => true) (fun _ : Nat => false)).1 []
      [("3s engine", Except.ok (some 3)), ("10s engine", Except.ok (some 10))]
      ("1s engine", Except.ok (some 1)) (by simp) rfl,
   (c3_amended (fun _ : Nat => true) (fun _ : Nat => false)).2.1 c3Events (by decide)⟩

/-- C4 counterexample: when the aggregate race timeout elapses with engines
still pending, `_route_journal` does not return None — the uncaught
`concurrent.futures.TimeoutError` of `as_completed` propagates to the
caller. -/
theorem c4_counterexample :
    route_journal_run (fun _ : Nat => true) (fun _ : Nat => false) [] true
      = Except.error "concurrent.futures.TimeoutError"
    ∧ route_journal_run (fun _ : Nat => true) (fun _ : Nat => false) [] true
      ≠ Except.ok none :=
  ⟨rfl, by simp [route_journal_run]⟩

/-- C4 amended: `router.py`'s `_search_engines_parallel` returns None both
when no completed engine produces a minimally complete record and when the
race times out (its `FuturesTimeout` handler falls through to None);
`unified_router.py`'s `_route_journal` returns None when zero engines
produce a minimally complete record within the window, but when the
aggregate timeout elapses with engines still pending it raises
`concurrent.futures.TimeoutError` to its caller instead of returning None. -/
theorem c4_amended {α : Type} (valid : α → Bool) (hasDoi : α → Bool) :
    (∀ events : List (RaceEvent α),
       (∀ e ∈ events, validEvent valid e = false) →
       search_engines_parallel valid events = none)
    ∧ (∀ events : List (RaceEvent α),
       (∀ e ∈ events, validEvent valid e = false) →
       route_journal_run valid hasDoi events false = Except.ok none)
    ∧ (∀ events : List (RaceEvent α),
       route_journal_run valid hasDoi events true
         = Except.error "concurrent.futures.TimeoutError") := by
  have hres : ∀ events : List (RaceEvent α),
      (∀ e ∈ events, validEvent valid e = false) →
      routeJournalResults valid events = [] := by
    intro events hinv
    refine List.filterMap_eq_nil_iff.mpr (fun e he => ?_)
    have := hinv e he
    rcases e with ⟨name, out⟩
    rcases out with err | r
    · rfl
    · rcases r with _ | r
      · rfl
      · have hv : valid r = false := by simpa [validEvent] using this
        simp [hv]
  refine ⟨?_, ?_, fun events => rfl⟩
  · intro events hinv
    rw [search_engines_parallel_eq_head, hres events hinv]
    rfl
  · intro events hinv
    simp [route_journal_run, route_journal_pick, hres events hinv]

/-- C4 witness: the amended statement at concrete events in which one engine
raises, one returns None, and one fails the minimum-data gate. -/
theorem c4_amended_witness :
    search_engines_parallel (fun _ : Nat => false) c4Events = none
    ∧ route_journal_run (fun _ : Nat => false) (fun _ : Nat => false) c4Events false
        = Except.ok none
    ∧ route_journal_run (fun _ : Nat => false) (fun _ : Nat => false) c4Events true
        = Except.error "concurrent.futures.TimeoutError" :=
  ⟨(c4_amended (fun _ : Nat => false) (fun _ : Nat => false)).1 c4Events (by decide),
   (c4_amended (fun _ : Nat => false) (fun _ : Nat => false)).2.1 c4Events (by decide),
   (c4_amended (fun _ : Nat => false) (fun _ : Nat => false)).2.2 c4Events⟩

end CitePerfect
